import Mathlib

/-!
Shallow embedding of the provizio_dds entity-lifecycle and matching layer.

The embedding follows the repository sources:
  - include/provizio/dds/qos_defaults.h        (qos_defaults)
  - include/provizio/dds/publisher.h           (publisher_handle, data_writer_listener)
  - include/provizio/dds/subscriber.h          (subscriber_handle, listeners)
  - src/domain_participant.cpp                 (make_domain_participant)

The external Fast-DDS middleware is modelled as an oracle (a structure of
response functions); the embedded code sequences calls into it exactly as the
C++ does. Null pointers are modelled as Option.none, and a dereference of a
null pointer is modelled as a fault (an Option.none overall result).
-/

/-- Reliability policy kinds, as in the Fast-DDS standard qos policies
(qos_defaults.h uses RELIABLE_RELIABILITY_QOS and BEST_EFFORT_RELIABILITY_QOS). -/
inductive ReliabilityQosPolicyKind where
  | RELIABLE_RELIABILITY_QOS
  | BEST_EFFORT_RELIABILITY_QOS
deriving DecidableEq

/-- Memory management policies from fastrtps rtps ResourceManagement. -/
inductive MemoryManagementPolicy where
  | PREALLOCATED_MEMORY_MODE
  | PREALLOCATED_WITH_REALLOC_MEMORY_MODE
  | DYNAMIC_RESERVE_MEMORY_MODE
  | DYNAMIC_REUSABLE_MEMORY_MODE
deriving DecidableEq

namespace qos_defaults

/-- qos_defaults.h line 43: default data writer reliability kind of the primary
(unspecialized) qos_defaults template. -/
def datawriter_reliability_kind : ReliabilityQosPolicyKind :=
  ReliabilityQosPolicyKind.RELIABLE_RELIABILITY_QOS

/-- qos_defaults.h line 51: default data reader reliability kind of the primary
(unspecialized) qos_defaults template. -/
def datareader_reliability_kind : ReliabilityQosPolicyKind :=
  ReliabilityQosPolicyKind.BEST_EFFORT_RELIABILITY_QOS

/-- qos_defaults.h line 59: default memory policy for both data reader and data
writer of the primary (unspecialized) qos_defaults template. -/
def memory_policy : MemoryManagementPolicy :=
  MemoryManagementPolicy.PREALLOCATED_WITH_REALLOC_MEMORY_MODE

end qos_defaults

/-- The match-status event payload delivered by the middleware to
data_writer_listener::on_publication_matched (publisher.h line 227):
the new current matched-peer count and the delta just applied. -/
structure PublicationMatchedStatus where
  current_count : Int
  current_count_change : Int
deriving DecidableEq

/-- The match-status event payload delivered by the middleware to
functional_data_listener::on_subscription_matched (subscriber.h line 216). -/
structure SubscriptionMatchedStatus where
  current_count : Int
  current_count_change : Int
deriving DecidableEq

/-- data_writer_listener::on_publication_matched, publisher.h lines 227-240.
The result models the single user-callback invocation the handler makes:
some true when the first branch fires (first subscriber just matched),
some false when the second branch fires (last subscriber just unmatched),
none when neither branch of the if/else-if fires (no callback). The if/else-if
dispatch makes at most one invocation per event, which Option encodes. -/
def on_publication_matched (info : PublicationMatchedStatus) : Option Bool :=
  if info.current_count > 0 ∧ info.current_count_change = info.current_count then
    some true
  else if info.current_count = 0 ∧ info.current_count_change < 0 then
    some false
  else
    none

/-- functional_data_listener::on_subscription_matched, subscriber.h
lines 216-230; same if/else-if dispatch as the publisher side, invoking the
on_has_publisher_changed user callback. -/
def on_subscription_matched (info : SubscriptionMatchedStatus) : Option Bool :=
  if info.current_count > 0 ∧ info.current_count_change = info.current_count then
    some true
  else if info.current_count = 0 ∧ info.current_count_change < 0 then
    some false
  else
    none

/-- The sequence of user-callback invocations produced by a sequence of
publication match-status events handled by on_publication_matched. -/
def publication_match_callbacks (events : List PublicationMatchedStatus) : List Bool :=
  events.filterMap on_publication_matched

/-- The sequence of user-callback invocations produced by a sequence of
subscription match-status events handled by on_subscription_matched. -/
def subscription_match_callbacks (events : List SubscriptionMatchedStatus) : List Bool :=
  events.filterMap on_subscription_matched

/-- C1: for every single match-status event, the user match callback is invoked
with matched=true exactly when current_count is positive and
current_count_change equals current_count; invoked with matched=false exactly
when current_count is zero and current_count_change is negative; and invoked
with nothing at all for every other combination. The Option result encodes
that at most one callback invocation occurs per event. Holds for both the
publisher-side and the subscriber-side listener. -/
theorem on_matched_edge_trigger (p : PublicationMatchedStatus) (s : SubscriptionMatchedStatus) :
    (on_publication_matched p = some true ↔
      p.current_count > 0 ∧ p.current_count_change = p.current_count) ∧
    (on_publication_matched p = some false ↔
      p.current_count = 0 ∧ p.current_count_change < 0) ∧
    (on_publication_matched p = none ↔
      ¬(p.current_count > 0 ∧ p.current_count_change = p.current_count) ∧
      ¬(p.current_count = 0 ∧ p.current_count_change < 0)) ∧
    (on_subscription_matched s = some true ↔
      s.current_count > 0 ∧ s.current_count_change = s.current_count) ∧
    (on_subscription_matched s = some false ↔
      s.current_count = 0 ∧ s.current_count_change < 0) ∧
    (on_subscription_matched s = none ↔
      ¬(s.current_count > 0 ∧ s.current_count_change = s.current_count) ∧
      ¬(s.current_count = 0 ∧ s.current_count_change < 0)) := by
  unfold on_publication_matched on_subscription_matched
  constructor
  · split_ifs with h1 h2 <;> simp_all
  constructor
  · split_ifs with h1 h2 <;> simp_all
  constructor
  · split_ifs with h1 h2 <;> simp_all
  constructor
  · split_ifs with h1 h2 <;> simp_all
  constructor
  · split_ifs with h1 h2 <;> simp_all
  · split_ifs with h1 h2 <;> simp_all

/-- C2: over the event sequence whose matched-peer counts transition
0 to 1 to 2 to 1 to 0 (each delta equal to the count change since the previous
event), matched=true fires exactly once, at the first event; matched=false
fires exactly once, at the final event; and the intermediate events (1 to 2 and
2 to 1) produce no callback at all. Holds for both listener sides. -/
theorem match_sequence_0_1_2_1_0 :
    publication_match_callbacks
        [⟨1, 1⟩, ⟨2, 1⟩, ⟨1, -1⟩, ⟨0, -1⟩] = [true, false] ∧
    on_publication_matched ⟨1, 1⟩ = some true ∧
    on_publication_matched ⟨2, 1⟩ = none ∧
    on_publication_matched ⟨1, -1⟩ = none ∧
    on_publication_matched ⟨0, -1⟩ = some false ∧
    subscription_match_callbacks
        [⟨1, 1⟩, ⟨2, 1⟩, ⟨1, -1⟩, ⟨0, -1⟩] = [true, false] ∧
    on_subscription_matched ⟨1, 1⟩ = some true ∧
    on_subscription_matched ⟨2, 1⟩ = none ∧
    on_subscription_matched ⟨1, -1⟩ = none ∧
    on_subscription_matched ⟨0, -1⟩ = some false := by
  decide

/-- An opaque middleware Topic entity (a non-null Topic pointer). -/
structure Topic where
  id : Nat
deriving DecidableEq

/-- An opaque middleware Publisher container entity. -/
structure Publisher where
  id : Nat
deriving DecidableEq

/-- An opaque middleware DataWriter entity. -/
structure DataWriter where
  id : Nat
deriving DecidableEq

/-- An opaque middleware Subscriber container entity. -/
structure Subscriber where
  id : Nat
deriving DecidableEq

/-- An opaque middleware DataReader entity. -/
structure DataReader where
  id : Nat
deriving DecidableEq

/-- The qos fields of a DataWriter or DataReader qos bundle that the core
touches (publisher.h lines 280-282, subscriber.h lines 141-143), plus an
opaque remainder standing for every untouched field. -/
structure EndpointQos where
  reliability_kind : ReliabilityQosPolicyKind
  history_memory_policy : MemoryManagementPolicy
  rest : Nat
deriving DecidableEq

/-- The middleware oracle as seen by publisher_handle construction: the
DATAWRITER_QOS_DEFAULT constant and the responses of the create primitives.
create_topic is a function of the topic name, create_datawriter of the topic
pointer and qos actually passed (so a null topic argument is observable). -/
structure PubMiddleware where
  DATAWRITER_QOS_DEFAULT : EndpointQos
  create_topic : String → Option Topic
  create_publisher : Option Publisher
  create_datawriter : Option Topic → EndpointQos → Option DataWriter

/-- One middleware call made by the publisher_handle constructor, with the
arguments the core passes that matter to the claims. -/
inductive PubCtorCall where
  | register_type
  | create_topic (topic_name : String)
  | create_publisher
  | create_datawriter (topic : Option Topic) (qos : EndpointQos)
deriving DecidableEq

/-- The entity pointers a publisher_handle owns (publisher.h lines 150-152);
none models a null pointer. -/
structure publisher_handle where
  topic : Option Topic
  publisher : Option Publisher
  data_writer : Option DataWriter
deriving DecidableEq

/-- publisher_handle delegate constructor, publisher.h lines 269-288.
The C++ body runs all four steps unconditionally and in this order:
type_support.register_type, create_topic, create_publisher,
publisher->create_datawriter. The call on publisher is a dereference: when
create_publisher returned null the constructor faults (result none) and the
trace stops there. The datawriter qos starts from DATAWRITER_QOS_DEFAULT with
reliability kind and history memory policy overwritten (lines 280-282). -/
def publisher_handle_ctor (mw : PubMiddleware) (topic_name : String)
    (reliability_kind : ReliabilityQosPolicyKind) :
    Option publisher_handle × List PubCtorCall :=
  let datawriter_qos : EndpointQos :=
    { mw.DATAWRITER_QOS_DEFAULT with
        reliability_kind := reliability_kind
        history_memory_policy := qos_defaults.memory_policy }
  let topic := mw.create_topic topic_name
  match mw.create_publisher with
  | none =>
      (none, [PubCtorCall.register_type, PubCtorCall.create_topic topic_name,
              PubCtorCall.create_publisher])
  | some pub =>
      (some { topic := topic, publisher := some pub,
              data_writer := mw.create_datawriter topic datawriter_qos },
       [PubCtorCall.register_type, PubCtorCall.create_topic topic_name,
        PubCtorCall.create_publisher,
        PubCtorCall.create_datawriter topic datawriter_qos])

/-- publisher_handle constructed with the defaulted reliability argument
(publisher.h lines 105-107: the default argument is
qos_defaults::datawriter_reliability_kind). -/
def publisher_handle_ctor_default (mw : PubMiddleware) (topic_name : String) :
    Option publisher_handle × List PubCtorCall :=
  publisher_handle_ctor mw topic_name qos_defaults.datawriter_reliability_kind

/-- One middleware call made by the publisher_handle destructor, or the final
release of the shared participant reference (member destruction of the
domain_participant shared_ptr, which happens after the destructor body). -/
inductive PubDtorCall where
  | delete_datawriter (w : DataWriter)
  | delete_publisher (p : Publisher)
  | delete_topic (t : Topic)
  | release_participant
deriving DecidableEq

/-- publisher_handle destructor, publisher.h lines 290-307: delete the data
writer if non-null (through the publisher pointer, a dereference that faults
when publisher is null), then delete the publisher if non-null, then delete
the topic if non-null; finally the shared participant reference is released by
member destruction. Result none models a fault. -/
def publisher_handle_dtor (h : publisher_handle) : Option (List PubDtorCall) :=
  let step1 : Option (List PubDtorCall) :=
    match h.data_writer with
    | some w =>
        match h.publisher with
        | some _ => some [PubDtorCall.delete_datawriter w]
        | none => none
    | none => some []
  match step1 with
  | none => none
  | some calls1 =>
      let calls2 := calls1 ++
        (match h.publisher with
         | some p => [PubDtorCall.delete_publisher p]
         | none => [])
      let calls3 := calls2 ++
        (match h.topic with
         | some t => [PubDtorCall.delete_topic t]
         | none => [])
      some (calls3 ++ [PubDtorCall.release_participant])

/-- publisher_handle::publish, publisher.h lines 309-313: the body is a single
statement returning data_writer->write(&data). The middleware-reported write
result is the oracle argument; a null data_writer makes the call a null
dereference, modelled as a fault (none). On success the handle state is
returned unchanged alongside the forwarded result. -/
def publish (h : publisher_handle) (write_result : Bool) :
    Option (Bool × publisher_handle) :=
  match h.data_writer with
  | none => none
  | some _ => some (write_result, h)

/-- The middleware oracle as seen by subscriber_handle construction
(subscriber.h lines 131-149). -/
structure SubMiddleware where
  DATAREADER_QOS_DEFAULT : EndpointQos
  create_topic : String → Option Topic
  create_subscriber : Option Subscriber
  create_datareader : Option Topic → EndpointQos → Option DataReader

/-- One middleware call made by the subscriber_handle constructor. -/
inductive SubCtorCall where
  | register_type
  | create_topic (topic_name : String)
  | create_subscriber
  | create_datareader (topic : Option Topic) (qos : EndpointQos)
deriving DecidableEq

/-- The entity pointers a subscriber_handle owns (subscriber.h lines 71-73). -/
structure subscriber_handle where
  topic : Option Topic
  subscriber : Option Subscriber
  data_reader : Option DataReader
deriving DecidableEq

/-- subscriber_handle constructor, subscriber.h lines 131-149; mirrors the
publisher constructor: register type, create topic, create subscriber, then
subscriber->create_datareader (a dereference, faulting when the subscriber
container is null), with the datareader qos starting from
DATAREADER_QOS_DEFAULT and reliability kind plus memory policy overwritten. -/
def subscriber_handle_ctor (mw : SubMiddleware) (topic_name : String)
    (reliability_kind : ReliabilityQosPolicyKind) :
    Option subscriber_handle × List SubCtorCall :=
  let datareader_qos : EndpointQos :=
    { mw.DATAREADER_QOS_DEFAULT with
        reliability_kind := reliability_kind
        history_memory_policy := qos_defaults.memory_policy }
  let topic := mw.create_topic topic_name
  match mw.create_subscriber with
  | none =>
      (none, [SubCtorCall.register_type, SubCtorCall.create_topic topic_name,
              SubCtorCall.create_subscriber])
  | some sub =>
      (some { topic := topic, subscriber := some sub,
              data_reader := mw.create_datareader topic datareader_qos },
       [SubCtorCall.register_type, SubCtorCall.create_topic topic_name,
        SubCtorCall.create_subscriber,
        SubCtorCall.create_datareader topic datareader_qos])

/-- subscriber_handle constructed with the defaulted reliability argument
(subscriber.h lines 61-64: the default argument is
qos_defaults::datareader_reliability_kind). -/
def subscriber_handle_ctor_default (mw : SubMiddleware) (topic_name : String) :
    Option subscriber_handle × List SubCtorCall :=
  subscriber_handle_ctor mw topic_name qos_defaults.datareader_reliability_kind

/-- One middleware call made by the subscriber_handle destructor, or the final
release of the shared participant reference. -/
inductive SubDtorCall where
  | delete_datareader (r : DataReader)
  | delete_subscriber (s : Subscriber)
  | delete_topic (t : Topic)
  | release_participant
deriving DecidableEq

/-- subscriber_handle destructor, subscriber.h lines 151-167: same shape as
the publisher destructor, for reader, subscriber container and topic. -/
def subscriber_handle_dtor (h : subscriber_handle) : Option (List SubDtorCall) :=
  let step1 : Option (List SubDtorCall) :=
    match h.data_reader with
    | some r =>
        match h.subscriber with
        | some _ => some [SubDtorCall.delete_datareader r]
        | none => none
    | none => some []
  match step1 with
  | none => none
  | some calls1 =>
      let calls2 := calls1 ++
        (match h.subscriber with
         | some s => [SubDtorCall.delete_subscriber s]
         | none => [])
      let calls3 := calls2 ++
        (match h.topic with
         | some t => [SubDtorCall.delete_topic t]
         | none => [])
      some (calls3 ++ [SubDtorCall.release_participant])

/-- Per-sample metadata as filled in by take_next_sample (the SampleInfo of
subscriber.h line 180); valid_data marks a real data sample as opposed to a
lifecycle-only marker. -/
structure SampleInfo where
  valid_data : Bool
deriving DecidableEq

/-- A buffered sample with its metadata, as the middleware holds it for a
reader. -/
structure Sample (α : Type) where
  info : SampleInfo
  data : α
deriving DecidableEq

/-- Middleware return codes relevant to take_next_sample. -/
inductive ReturnCode where
  | RETCODE_OK
  | RETCODE_NO_DATA
deriving DecidableEq

/-- The take_next_sample primitive of the middleware reader, modelled on a
reader buffer as a list of pending samples: pops the next buffered sample and
reports RETCODE_OK, or reports RETCODE_NO_DATA on an empty buffer. -/
def take_next_sample (buffered : List (Sample α)) :
    ReturnCode × Option (Sample α) × List (Sample α) :=
  match buffered with
  | [] => (ReturnCode.RETCODE_NO_DATA, none, [])
  | s :: rest => (ReturnCode.RETCODE_OK, some s, rest)

/-- on_data_function_data_listener::on_data_available, subscriber.h lines
178-186: calls take_next_sample once and forwards the sample to the user data
callback exactly when the take returned RETCODE_OK and the metadata marks the
sample valid. The result is (samples delivered to the user callback, remaining
reader buffer, number of take_next_sample calls performed). -/
def on_data_available (buffered : List (Sample α)) :
    List α × List (Sample α) × Nat :=
  match take_next_sample buffered with
  | (rc, some s, rest) =>
      (if rc = ReturnCode.RETCODE_OK ∧ s.info.valid_data then [s.data] else [],
       rest, 1)
  | (_, none, rest) => ([], rest, 1)

/-- An opaque middleware DomainParticipant entity. -/
structure Participant where
  id : Nat
deriving DecidableEq

/-- The participant qos bundle: the one field make_domain_participant touches
(wire_protocol builtin discovery_config initial_announcements count), plus an
opaque remainder standing for every other field. -/
structure DomainParticipantQos where
  initial_announcements_count : Nat
  rest : Nat
deriving DecidableEq

/-- PARTICIPANT_QOS_DEFAULT: the middleware default participant qos, with an
initial announcements count of 5 (domain_participant.cpp lines 40-41: only 5
multicast announcements are sent by default) and arbitrary other fields. -/
def PARTICIPANT_QOS_DEFAULT (rest : Nat) : DomainParticipantQos :=
  { initial_announcements_count := 5, rest := rest }

/-- The qos actually built by make_domain_participant, domain_participant.cpp
lines 38-44: a copy of PARTICIPANT_QOS_DEFAULT with the initial announcements
count set to 150 and nothing else written. -/
def make_domain_participant_qos (rest : Nat) : DomainParticipantQos :=
  let qos := PARTICIPANT_QOS_DEFAULT rest
  { qos with initial_announcements_count := 150 }

/-- The process-wide DomainParticipantFactory singleton
(DomainParticipantFactory::get_instance), as the oracle for
create_participant responses. -/
structure DomainParticipantFactory where
  create_participant : Nat → DomainParticipantQos → Option Participant

/-- The way a shared participant handle will destroy its participant. -/
inductive ParticipantDeleter where
  | factory_delete_participant
  | generic_delete
deriving DecidableEq

/-- The shared_ptr handle returned by make_domain_participant: the stored
participant pointer (null when creation failed) and the custom deleter bound
into it. factory_delete_participant stands for the local delete_participant of
domain_participant.cpp lines 30-33, which routes through
DomainParticipantFactory::get_instance()->delete_participant. -/
structure SharedDomainParticipant where
  ptr : Option Participant
  deleter : ParticipantDeleter
deriving DecidableEq

/-- make_domain_participant, domain_participant.cpp lines 36-48: builds the
qos from the default with the announcements count raised to 150, calls the
factory singleton create_participant once with it, and wraps whatever pointer
comes back (null included) in a shared handle whose deleter is the
factory-routed delete_participant. -/
def make_domain_participant (factory : DomainParticipantFactory)
    (domain_id : Nat) (default_rest : Nat) : SharedDomainParticipant :=
  { ptr := factory.create_participant domain_id
      (make_domain_participant_qos default_rest),
    deleter := ParticipantDeleter.factory_delete_participant }

/-- A concrete middleware response set for the publisher side where every
create primitive succeeds. -/
def pubMwAllSucceed : PubMiddleware :=
  { DATAWRITER_QOS_DEFAULT :=
      { reliability_kind := ReliabilityQosPolicyKind.RELIABLE_RELIABILITY_QOS,
        history_memory_policy := MemoryManagementPolicy.PREALLOCATED_MEMORY_MODE,
        rest := 0 },
    create_topic := fun _ => some ⟨1⟩,
    create_publisher := some ⟨2⟩,
    create_datawriter := fun _ _ => some ⟨3⟩ }

/-- A concrete middleware response set where topic creation fails but the
publisher container and data writer creates succeed. -/
def pubMwTopicFails : PubMiddleware :=
  { DATAWRITER_QOS_DEFAULT :=
      { reliability_kind := ReliabilityQosPolicyKind.RELIABLE_RELIABILITY_QOS,
        history_memory_policy := MemoryManagementPolicy.PREALLOCATED_MEMORY_MODE,
        rest := 0 },
    create_topic := fun _ => none,
    create_publisher := some ⟨2⟩,
    create_datawriter := fun _ _ => some ⟨3⟩ }

/-- A concrete middleware response set where topic and publisher container
creation succeed but the data writer create fails. -/
def pubMwWriterFails : PubMiddleware :=
  { DATAWRITER_QOS_DEFAULT :=
      { reliability_kind := ReliabilityQosPolicyKind.RELIABLE_RELIABILITY_QOS,
        history_memory_policy := MemoryManagementPolicy.PREALLOCATED_MEMORY_MODE,
        rest := 0 },
    create_topic := fun _ => some ⟨1⟩,
    create_publisher := some ⟨2⟩,
    create_datawriter := fun _ _ => none }

/-- A concrete middleware response set for the subscriber side where every
create primitive succeeds. -/
def subMwAllSucceed : SubMiddleware :=
  { DATAREADER_QOS_DEFAULT :=
      { reliability_kind := ReliabilityQosPolicyKind.BEST_EFFORT_RELIABILITY_QOS,
        history_memory_policy := MemoryManagementPolicy.PREALLOCATED_MEMORY_MODE,
        rest := 0 },
    create_topic := fun _ => some ⟨4⟩,
    create_subscriber := some ⟨5⟩,
    create_datareader := fun _ _ => some ⟨6⟩ }

/-- A concrete middleware response set for the subscriber side where the data
reader create fails. -/
def subMwReaderFails : SubMiddleware :=
  { DATAREADER_QOS_DEFAULT :=
      { reliability_kind := ReliabilityQosPolicyKind.BEST_EFFORT_RELIABILITY_QOS,
        history_memory_policy := MemoryManagementPolicy.PREALLOCATED_MEMORY_MODE,
        rest := 0 },
    create_topic := fun _ => some ⟨4⟩,
    create_subscriber := some ⟨5⟩,
    create_datareader := fun _ _ => none }

/-- C3: for every publisher or subscriber handle in a partially-constructed
state (in particular every state where a created writer or reader implies a
created container, which covers all states where a suffix of the create steps
failed), the destructor performs no fault and emits exactly one delete per
actually-created entity, in the strict order writer or reader first, then
container, then topic, then the release of the participant reference; a
never-created (none) entity gets no delete call at all. -/
theorem dtor_deletes_only_created (h : publisher_handle) (g : subscriber_handle)
    (hw : h.data_writer.isSome → h.publisher.isSome)
    (hr : g.data_reader.isSome → g.subscriber.isSome) :
    publisher_handle_dtor h =
      some (h.data_writer.toList.map PubDtorCall.delete_datawriter ++
            h.publisher.toList.map PubDtorCall.delete_publisher ++
            h.topic.toList.map PubDtorCall.delete_topic ++
            [PubDtorCall.release_participant]) ∧
    subscriber_handle_dtor g =
      some (g.data_reader.toList.map SubDtorCall.delete_datareader ++
            g.subscriber.toList.map SubDtorCall.delete_subscriber ++
            g.topic.toList.map SubDtorCall.delete_topic ++
            [SubDtorCall.release_participant]) := by
  obtain ⟨ht, hp, hw2⟩ := h
  obtain ⟨gt, gs, gr⟩ := g
  cases hw2 <;> cases hp <;> cases ht <;> cases gr <;> cases gs <;> cases gt <;>
    simp_all [publisher_handle_dtor, subscriber_handle_dtor]

/-- Witness for C3 at concrete partially-constructed handles: a publisher
handle whose writer create failed, and a subscriber handle where only the
topic was created. -/
theorem dtor_deletes_only_created_witness :
    publisher_handle_dtor
        { topic := some ⟨1⟩, publisher := some ⟨2⟩, data_writer := none } =
      some [PubDtorCall.delete_publisher ⟨2⟩, PubDtorCall.delete_topic ⟨1⟩,
            PubDtorCall.release_participant] ∧
    subscriber_handle_dtor
        { topic := some ⟨4⟩, subscriber := none, data_reader := none } =
      some [SubDtorCall.delete_topic ⟨4⟩, SubDtorCall.release_participant] := by
  simpa using dtor_deletes_only_created
    { topic := some ⟨1⟩, publisher := some ⟨2⟩, data_writer := none }
    { topic := some ⟨4⟩, subscriber := none, data_reader := none }
    (by decide) (by decide)

/-- C4 counterexample: with middleware responses where the topic create fails
(returns null) while the container create succeeds, the constructor still
performs the later create steps: the trace shows create_publisher and
create_datawriter both executed, and the failed (none) topic result fed
straight into the create_datawriter call. So it is false that each later step
is performed only if the previous step succeeded. -/
theorem ctor_runs_later_steps_after_failure :
    pubMwTopicFails.create_topic "T" = none ∧
    (publisher_handle_ctor pubMwTopicFails "T"
        qos_defaults.datawriter_reliability_kind).2 =
      [PubCtorCall.register_type, PubCtorCall.create_topic "T",
       PubCtorCall.create_publisher,
       PubCtorCall.create_datawriter none
         { reliability_kind := ReliabilityQosPolicyKind.RELIABLE_RELIABILITY_QOS,
           history_memory_policy :=
             MemoryManagementPolicy.PREALLOCATED_WITH_REALLOC_MEMORY_MODE,
           rest := 0 }] := by
  constructor <;> rfl

/-- C4 amended: construction performs exactly the four steps register type,
create topic, create container, create data-writer or data-reader, in that
order, but unconditionally: a failed create does not halt the protocol, and
the (possibly null) topic result is fed into the data-writer or data-reader
create call. Stated whenever the container create succeeds (when it fails the
constructor faults at the container dereference instead of halting cleanly). -/
theorem ctor_call_order (mw : PubMiddleware) (smw : SubMiddleware) (name : String)
    (kw kr : ReliabilityQosPolicyKind)
    (hp : mw.create_publisher.isSome) (hs : smw.create_subscriber.isSome) :
    (publisher_handle_ctor mw name kw).2 =
      [PubCtorCall.register_type, PubCtorCall.create_topic name,
       PubCtorCall.create_publisher,
       PubCtorCall.create_datawriter (mw.create_topic name)
         { mw.DATAWRITER_QOS_DEFAULT with
             reliability_kind := kw
             history_memory_policy := qos_defaults.memory_policy }] ∧
    (subscriber_handle_ctor smw name kr).2 =
      [SubCtorCall.register_type, SubCtorCall.create_topic name,
       SubCtorCall.create_subscriber,
       SubCtorCall.create_datareader (smw.create_topic name)
         { smw.DATAREADER_QOS_DEFAULT with
             reliability_kind := kr
             history_memory_policy := qos_defaults.memory_policy }] := by
  obtain ⟨p, hp2⟩ := Option.isSome_iff_exists.mp hp
  obtain ⟨s, hs2⟩ := Option.isSome_iff_exists.mp hs
  simp [publisher_handle_ctor, subscriber_handle_ctor, hp2, hs2]

/-- Witness for C4 amended at concrete all-succeeding middleware responses. -/
theorem ctor_call_order_witness :
    (publisher_handle_ctor pubMwAllSucceed "T"
        ReliabilityQosPolicyKind.RELIABLE_RELIABILITY_QOS).2 =
      [PubCtorCall.register_type, PubCtorCall.create_topic "T",
       PubCtorCall.create_publisher,
       PubCtorCall.create_datawriter (some ⟨1⟩)
         { reliability_kind := ReliabilityQosPolicyKind.RELIABLE_RELIABILITY_QOS,
           history_memory_policy :=
             MemoryManagementPolicy.PREALLOCATED_WITH_REALLOC_MEMORY_MODE,
           rest := 0 }] ∧
    (subscriber_handle_ctor subMwAllSucceed "T"
        ReliabilityQosPolicyKind.BEST_EFFORT_RELIABILITY_QOS).2 =
      [SubCtorCall.register_type, SubCtorCall.create_topic "T",
       SubCtorCall.create_subscriber,
       SubCtorCall.create_datareader (some ⟨4⟩)
         { reliability_kind := ReliabilityQosPolicyKind.BEST_EFFORT_RELIABILITY_QOS,
           history_memory_policy :=
             MemoryManagementPolicy.PREALLOCATED_WITH_REALLOC_MEMORY_MODE,
           rest := 0 }] := by
  simpa using ctor_call_order pubMwAllSucceed subMwAllSucceed "T"
    ReliabilityQosPolicyKind.RELIABLE_RELIABILITY_QOS
    ReliabilityQosPolicyKind.BEST_EFFORT_RELIABILITY_QOS
    (by decide) (by decide)

/-- C5: for every data-available notification, exactly one take_next_sample
call is performed, exactly one buffered sample (at most) is consumed, at most
one sample is delivered, and a sample is forwarded to the user data callback
if and only if the take succeeded (a sample was buffered) and its metadata
marks it valid; a failed take or an invalid sample delivers nothing and
reports no error. -/
theorem on_data_available_single_take {α : Type} (buffered : List (Sample α)) :
    (on_data_available buffered).2.2 = 1 ∧
    (on_data_available buffered).2.1 = buffered.drop 1 ∧
    (on_data_available buffered).1.length ≤ 1 ∧
    (∀ d : α, (on_data_available buffered).1 = [d] ↔
      ∃ s : Sample α, buffered.head? = some s ∧ s.info.valid_data = true ∧
        d = s.data) := by
  cases buffered with
  | nil => simp [on_data_available, take_next_sample]
  | cons s rest =>
      by_cases hv : s.info.valid_data
      · simp [on_data_available, take_next_sample, hv]
        intro d
        exact eq_comm
      · simp [on_data_available, take_next_sample, hv]

/-- C6: for every successfully constructed publisher handle (its data writer
was created) and every sample, publish returns exactly the boolean the data
writer write primitive reports, leaves the handle state unchanged, and raises
no fault when the reported result is false. -/
theorem publish_forwards_write_result (h : publisher_handle) (b : Bool)
    (hw : h.data_writer.isSome) :
    publish h b = some (b, h) := by
  obtain ⟨w, hw2⟩ := Option.isSome_iff_exists.mp hw
  simp [publish, hw2]

/-- Witness for C6: a fully constructed handle forwarding a false write
result without fault. -/
theorem publish_forwards_write_result_witness :
    publish { topic := some ⟨1⟩, publisher := some ⟨2⟩, data_writer := some ⟨3⟩ }
        false =
      some (false,
        { topic := some ⟨1⟩, publisher := some ⟨2⟩, data_writer := some ⟨3⟩ }) :=
  publish_forwards_write_result
    { topic := some ⟨1⟩, publisher := some ⟨2⟩, data_writer := some ⟨3⟩ }
    false (by decide)

/-- C7 counterexample: when the data writer create step fails, the
constructor does complete and yields a handle with a null data writer, but a
subsequent publish on that handle is a null dereference (a fault, modelled
none), not a reported failure. So it is false that every subsequent public
operation on the unusable handle reports failure or does nothing rather than
faulting. -/
theorem publish_faults_after_failed_ctor :
    (publisher_handle_ctor pubMwWriterFails "T"
        qos_defaults.datawriter_reliability_kind).1 =
      some { topic := some ⟨1⟩, publisher := some ⟨2⟩, data_writer := none } ∧
    publish { topic := some ⟨1⟩, publisher := some ⟨2⟩, data_writer := none }
        true = none := by
  constructor <;> rfl

/-- Helper: publish on a handle whose data writer pointer is null is a null
dereference, modelled as a fault. -/
theorem publish_none_of_no_writer (h : publisher_handle) (b : Bool)
    (hw : h.data_writer = none) : publish h b = none := by
  simp [publish, hw]

/-- Helper: the publisher destructor never faults when the publisher
container pointer is non-null, whatever the other entity pointers are. -/
theorem publisher_handle_dtor_total (h : publisher_handle)
    (hp : h.publisher.isSome) : (publisher_handle_dtor h).isSome := by
  obtain ⟨t, p, w⟩ := h
  cases w <;> cases p <;> cases t <;> simp_all [publisher_handle_dtor]

/-- Helper: the subscriber destructor never faults when the subscriber
container pointer is non-null, whatever the other entity pointers are. -/
theorem subscriber_handle_dtor_total (g : subscriber_handle)
    (hs : g.subscriber.isSome) : (subscriber_handle_dtor g).isSome := by
  obtain ⟨t, s, r⟩ := g
  cases r <;> cases s <;> cases t <;> simp_all [subscriber_handle_dtor]

/-- C7 amended: whenever the container create succeeds, a construction with
failed create steps still completes and yields a handle, and destruction of
that handle never faults (it skips never-created entities); but publish on a
handle whose data writer was never created faults (dereferences the null
writer) instead of reporting failure. -/
theorem failed_ctor_yields_discardable_handle (mw : PubMiddleware)
    (smw : SubMiddleware) (name : String) (kw kr : ReliabilityQosPolicyKind)
    (hp : mw.create_publisher.isSome) (hs : smw.create_subscriber.isSome) :
    (∃ h : publisher_handle,
        (publisher_handle_ctor mw name kw).1 = some h ∧
        (publisher_handle_dtor h).isSome ∧
        (h.data_writer = none → ∀ b : Bool, publish h b = none)) ∧
    (∃ g : subscriber_handle,
        (subscriber_handle_ctor smw name kr).1 = some g ∧
        (subscriber_handle_dtor g).isSome) := by
  obtain ⟨p, hp2⟩ := Option.isSome_iff_exists.mp hp
  obtain ⟨s, hs2⟩ := Option.isSome_iff_exists.mp hs
  refine
    ⟨⟨{ topic := mw.create_topic name, publisher := some p,
        data_writer := mw.create_datawriter (mw.create_topic name)
          { mw.DATAWRITER_QOS_DEFAULT with
              reliability_kind := kw
              history_memory_policy := qos_defaults.memory_policy } },
      ?_, ?_, ?_⟩,
     ⟨{ topic := smw.create_topic name, subscriber := some s,
        data_reader := smw.create_datareader (smw.create_topic name)
          { smw.DATAREADER_QOS_DEFAULT with
              reliability_kind := kr
              history_memory_policy := qos_defaults.memory_policy } },
      ?_, ?_⟩⟩
  · simp [publisher_handle_ctor, hp2]
  · exact publisher_handle_dtor_total _ (by simp)
  · intro hnone b
    exact publish_none_of_no_writer _ b hnone
  · simp [subscriber_handle_ctor, hs2]
  · exact subscriber_handle_dtor_total _ (by simp)

/-- Witness for C7 amended at concrete middleware responses whose writer and
reader creates fail. -/
theorem failed_ctor_yields_discardable_handle_witness :
    (∃ h : publisher_handle,
        (publisher_handle_ctor pubMwWriterFails "W"
            ReliabilityQosPolicyKind.RELIABLE_RELIABILITY_QOS).1 = some h ∧
        (publisher_handle_dtor h).isSome ∧
        (h.data_writer = none → ∀ b : Bool, publish h b = none)) ∧
    (∃ g : subscriber_handle,
        (subscriber_handle_ctor subMwReaderFails "W"
            ReliabilityQosPolicyKind.BEST_EFFORT_RELIABILITY_QOS).1 = some g ∧
        (subscriber_handle_dtor g).isSome) :=
  failed_ctor_yields_discardable_handle pubMwWriterFails subMwReaderFails "W"
    ReliabilityQosPolicyKind.RELIABLE_RELIABILITY_QOS
    ReliabilityQosPolicyKind.BEST_EFFORT_RELIABILITY_QOS
    (by decide) (by decide)

/-- C8: for every domain id and every factory response, the handle returned
by make_domain_participant stores exactly the single create_participant
result of the factory singleton (so a failed create yields a null handle, with
no retry and no transformation), and the deleter bound into the handle is
always the factory-routed delete_participant, never a generic destructor. -/
theorem make_domain_participant_factory_routed
    (factory : DomainParticipantFactory) (domain_id default_rest : Nat) :
    (make_domain_participant factory domain_id default_rest).ptr =
      factory.create_participant domain_id
        (make_domain_participant_qos default_rest) ∧
    (make_domain_participant factory domain_id default_rest).deleter =
      ParticipantDeleter.factory_delete_participant :=
  ⟨rfl, rfl⟩

/-- C9: for a data type using the primary (unspecialized) qos_defaults, a
publisher endpoint created without an explicit reliability argument passes a
data-writer qos whose reliability kind is RELIABLE, and a subscriber endpoint
created without an explicit reliability argument passes a data-reader qos
whose reliability kind is BEST_EFFORT; both pass the pre-allocated with
reallocation fallback memory policy. -/
theorem default_qos_policies (mw : PubMiddleware) (smw : SubMiddleware)
    (name : String)
    (hp : mw.create_publisher.isSome) (hs : smw.create_subscriber.isSome) :
    (∃ qos : EndpointQos,
        PubCtorCall.create_datawriter (mw.create_topic name) qos ∈
          (publisher_handle_ctor_default mw name).2 ∧
        qos.reliability_kind =
          ReliabilityQosPolicyKind.RELIABLE_RELIABILITY_QOS ∧
        qos.history_memory_policy =
          MemoryManagementPolicy.PREALLOCATED_WITH_REALLOC_MEMORY_MODE) ∧
    (∃ qos : EndpointQos,
        SubCtorCall.create_datareader (smw.create_topic name) qos ∈
          (subscriber_handle_ctor_default smw name).2 ∧
        qos.reliability_kind =
          ReliabilityQosPolicyKind.BEST_EFFORT_RELIABILITY_QOS ∧
        qos.history_memory_policy =
          MemoryManagementPolicy.PREALLOCATED_WITH_REALLOC_MEMORY_MODE) := by
  obtain ⟨p, hp2⟩ := Option.isSome_iff_exists.mp hp
  obtain ⟨s, hs2⟩ := Option.isSome_iff_exists.mp hs
  constructor
  · refine ⟨{ mw.DATAWRITER_QOS_DEFAULT with
        reliability_kind := qos_defaults.datawriter_reliability_kind
        history_memory_policy := qos_defaults.memory_policy }, ?_, rfl, rfl⟩
    simp [publisher_handle_ctor_default, publisher_handle_ctor, hp2]
  · refine ⟨{ smw.DATAREADER_QOS_DEFAULT with
        reliability_kind := qos_defaults.datareader_reliability_kind
        history_memory_policy := qos_defaults.memory_policy }, ?_, rfl, rfl⟩
    simp [subscriber_handle_ctor_default, subscriber_handle_ctor, hs2]

/-- Witness for C9 at concrete all-succeeding middleware responses. -/
theorem default_qos_policies_witness :
    (∃ qos : EndpointQos,
        PubCtorCall.create_datawriter (pubMwAllSucceed.create_topic "Q") qos ∈
          (publisher_handle_ctor_default pubMwAllSucceed "Q").2 ∧
        qos.reliability_kind =
          ReliabilityQosPolicyKind.RELIABLE_RELIABILITY_QOS ∧
        qos.history_memory_policy =
          MemoryManagementPolicy.PREALLOCATED_WITH_REALLOC_MEMORY_MODE) ∧
    (∃ qos : EndpointQos,
        SubCtorCall.create_datareader (subMwAllSucceed.create_topic "Q") qos ∈
          (subscriber_handle_ctor_default subMwAllSucceed "Q").2 ∧
        qos.reliability_kind =
          ReliabilityQosPolicyKind.BEST_EFFORT_RELIABILITY_QOS ∧
        qos.history_memory_policy =
          MemoryManagementPolicy.PREALLOCATED_WITH_REALLOC_MEMORY_MODE) :=
  default_qos_policies pubMwAllSucceed subMwAllSucceed "Q" (by decide) (by decide)

/-- C10: for every domain id, the participant qos passed to the factory by
make_domain_participant is exactly the default participant qos with a single
modification: the initial discovery announcements count raised from the
middleware default of 5 to 150; every other field is passed through
unchanged. -/
theorem participant_qos_single_field_change
    (factory : DomainParticipantFactory) (domain_id default_rest : Nat) :
    (make_domain_participant factory domain_id default_rest).ptr =
      factory.create_participant domain_id
        { PARTICIPANT_QOS_DEFAULT default_rest with
            initial_announcements_count := 150 } ∧
    (make_domain_participant_qos default_rest).initial_announcements_count =
      150 ∧
    (make_domain_participant_qos default_rest).rest =
      (PARTICIPANT_QOS_DEFAULT default_rest).rest ∧
    (PARTICIPANT_QOS_DEFAULT default_rest).initial_announcements_count = 5 :=
  ⟨rfl, rfl, rfl, rfl⟩
